import Mathlib

/-!
Verification of the night-simulation engine of the FNaF-style horror game
(`src/App.tsx`). The game state, the clock/power ticker, the animatronic
movement scheduler, the lifecycle controller and the player intents are
shallowly embedded below; `Math.random()` calls are modelled by explicit
rational-valued oracles, power is modelled by exact rationals.
-/

namespace Fnaf

/-- The three animatronic identities (`AnimatronicType` in the source). -/
inductive AnimatronicType
  | Deddy
  | Gen
  | Poppy
deriving DecidableEq

/-- The five nodes of the location graph (`CameraLocation` in the source). -/
inductive CameraLocation
  | stage
  | cam3
  | cam1
  | leftDoor
  | rightDoor
deriving DecidableEq

/-- The lifecycle phases (`GameState` in the source). -/
inductive GameState
  | menu
  | playing
  | gameOver
  | victory
deriving DecidableEq

/-- One animatronic's state (`Animatronic` interface in the source).
The optional `doorTimer?: number` field is modelled as a plain natural:
every constructor in the source initializes it to 0 and every read is
`(animatronic.doorTimer || 0)`. -/
structure Animatronic where
  name : AnimatronicType
  location : CameraLocation
  isActive : Bool
  moveTimer : Nat
  atDoor : Bool
  soundPlayed : Bool
  doorTimer : Nat
deriving DecidableEq

/-- The full game snapshot (`GameData` interface in the source). -/
structure GameData where
  night : Nat
  time : Nat
  power : ℚ
  leftDoorClosed : Bool
  rightDoorClosed : Bool
  currentCamera : ℤ
  animatronics : List Animatronic
  gameState : GameState
  bossMode : Bool
deriving DecidableEq

def NIGHT_DURATION : Nat := 360

def BASE_POWER_DRAIN : ℚ := 0.05

def DOOR_POWER_DRAIN : ℚ := 0.15

def CAMERA_POWER_DRAIN : ℚ := 0.2

/-- The initial `useState` value of `gameData` in the source: menu phase,
night 1, all three animatronics inactive on stage. -/
def initialGameData : GameData where
  night := 1
  time := 0
  power := 100
  leftDoorClosed := false
  rightDoorClosed := false
  currentCamera := 4
  animatronics :=
    [⟨.Deddy, .stage, false, 0, false, false, 0⟩,
     ⟨.Gen, .stage, false, 0, false, false, 0⟩,
     ⟨.Poppy, .stage, false, 0, false, false, 0⟩]
  gameState := .menu
  bossMode := false

/-- The per-night animatronic roster built by `initializeNight`: Deddy is
active from night 4, Gen and Poppy from night 1; night 5 overrides the
roster to Deddy alone (boss mode). -/
def nightAnimatronics (night : Nat) : List Animatronic :=
  if night = 5 then
    [⟨.Deddy, .stage, true, 0, false, false, 0⟩,
     ⟨.Gen, .stage, false, 0, false, false, 0⟩,
     ⟨.Poppy, .stage, false, 0, false, false, 0⟩]
  else
    [⟨.Deddy, .stage, decide (night ≥ 4), 0, false, false, 0⟩,
     ⟨.Gen, .stage, decide (night ≥ 1), 0, false, false, 0⟩,
     ⟨.Poppy, .stage, decide (night ≥ 1), 0, false, false, 0⟩]

/-- `initializeNight` from the source: fresh playing snapshot for the
requested night. -/
def initializeNight (night : Nat) (prev : GameData) : GameData :=
  { prev with
    night := night
    time := 0
    power := 100
    leftDoorClosed := false
    rightDoorClosed := false
    currentCamera := 4
    animatronics := nightAnimatronics night
    gameState := .playing
    bossMode := decide (night = 5) }

/-- `moveAnimatronic` from the source: the value of the fresh object it
returns. `hallChoice` models the `Math.random()` sample that resolves the
hallway (cam1) branch: below 1/2 the actor goes to the left door,
otherwise to the right door. The one-shot alert flag is set the first
time Deddy moves to a non-stage location; the source performs this as an
in-place assignment `animatronic.soundPlayed = true` on the argument (an
element of the previous array) before the spread, a side effect on the
previous array modelled separately by `mutateSound` below. -/
def moveAnimatronic (hallChoice : ℚ) (a : Animatronic) : Animatronic :=
  let newLocation : CameraLocation :=
    if a.location = .stage then .cam3
    else if a.location = .cam3 then .cam1
    else if a.location = .cam1 then (if hallChoice < 1/2 then .leftDoor else .rightDoor)
    else .stage
  { a with
    location := newLocation
    atDoor := decide (newLocation = .leftDoor ∨ newLocation = .rightDoor)
    moveTimer := 0
    soundPlayed :=
      if a.name = .Deddy ∧ a.soundPlayed = false ∧ newLocation ≠ .stage then true
      else a.soundPlayed }

/-- `isBlockedByDoor` from the source. -/
def isBlockedByDoor (a : Animatronic) (leftDoor rightDoor : Bool) : Bool :=
  (decide (a.location = .leftDoor) && leftDoor) ||
  (decide (a.location = .rightDoor) && rightDoor)

/-- The random samples one actor's update may consume on one scheduler
tick: the hallway branch choice inside `moveAnimatronic`, the boss-jump
probability check (`Math.random() < 0.045`), and the boss-jump door choice
(`Math.random() < 0.5`). -/
structure Rand where
  hallChoice : ℚ
  bossJump : ℚ
  bossDoor : ℚ

/-- The body of the `map` in the movement-timer callback: how one
animatronic is recomputed on a scheduler tick from the previous snapshot's
door flags and boss-mode flag. -/
def updateAnimatronic (bossMode leftDoorClosed rightDoorClosed : Bool)
    (r : Rand) (a : Animatronic) : Animatronic :=
  if a.isActive = false then a
  else if a.atDoor = true then
    if (a.location = .leftDoor ∧ leftDoorClosed = true) ∨
       (a.location = .rightDoor ∧ rightDoorClosed = true) then
      { a with location := .stage, atDoor := false, moveTimer := 0,
               soundPlayed := false, doorTimer := 0 }
    else if a.doorTimer + 1 ≥ 80 then
      { a with doorTimer := a.doorTimer + 1 }
    else
      { a with moveTimer := a.moveTimer + 1, doorTimer := a.doorTimer + 1 }
  else if (a.location = .stage ∧ a.moveTimer + 1 ≥ 80) ∨
          (a.location = .cam3 ∧ a.moveTimer + 1 ≥ 90) ∨
          (a.location = .cam1 ∧ a.moveTimer + 1 ≥ 100) then
    { moveAnimatronic r.hallChoice a with doorTimer := 0 }
  else if isBlockedByDoor a leftDoorClosed rightDoorClosed = true ∧ a.moveTimer + 1 ≥ 90 then
    { a with location := .stage, atDoor := false, moveTimer := 0,
             soundPlayed := false, doorTimer := 0 }
  else if bossMode = true ∧ a.name = .Deddy ∧ r.bossJump < 0.045 then
    { a with location := (if r.bossDoor < 1/2 then .leftDoor else .rightDoor),
             atDoor := true, moveTimer := 0, soundPlayed := false, doorTimer := 0 }
  else
    { a with moveTimer := a.moveTimer + 1, doorTimer := 0 }

/-- Applies `updateAnimatronic` to every list element, feeding each
position its own random oracle (each `map` iteration in the source draws
fresh `Math.random()` samples). -/
def updateList (bossMode leftDoorClosed rightDoorClosed : Bool) (rand : Nat → Rand) :
    Nat → List Animatronic → List Animatronic
  | _, [] => []
  | i, a :: rest =>
      updateAnimatronic bossMode leftDoorClosed rightDoorClosed (rand i) a ::
        updateList bossMode leftDoorClosed rightDoorClosed rand (i + 1) rest

/-- The `updatedAnimatronics` array computed inside the movement-timer
callback. -/
def updatedAnimatronics (rand : Nat → Rand) (prev : GameData) : List Animatronic :=
  updateList prev.bossMode prev.leftDoorClosed prev.rightDoorClosed rand 0 prev.animatronics

/-- The in-place side effect `moveAnimatronic` has on its argument: when
the moved actor is Deddy with the alert flag unset and the new location
(the same expression `moveAnimatronic` computes from the same hallway
sample) is not the stage, the source assigns `soundPlayed = true` on the
object held by the previous array before returning the fresh object. -/
def mutateSound (hallChoice : ℚ) (a : Animatronic) : Animatronic :=
  if a.name = .Deddy ∧ a.soundPlayed = false ∧
      (if a.location = .stage then CameraLocation.cam3
       else if a.location = .cam3 then CameraLocation.cam1
       else if a.location = .cam1 then
         (if hallChoice < 1/2 then CameraLocation.leftDoor else CameraLocation.rightDoor)
       else CameraLocation.stage) ≠ .stage then
    { a with soundPlayed := true }
  else a

/-- What a scheduler tick leaves behind on an element of the PREVIOUS
array: `moveAnimatronic` — and with it the in-place flag assignment — is
invoked exactly when the actor is active, not at a door, and its dwell
threshold fires; every other branch leaves the previous element
untouched. -/
def mutatedPrev (r : Rand) (a : Animatronic) : Animatronic :=
  if a.isActive = false then a
  else if a.atDoor = true then a
  else if (a.location = .stage ∧ a.moveTimer + 1 ≥ 80) ∨
          (a.location = .cam3 ∧ a.moveTimer + 1 ≥ 90) ∨
          (a.location = .cam1 ∧ a.moveTimer + 1 ≥ 100) then
    mutateSound r.hallChoice a
  else a

/-- The mutation residue applied elementwise, with the same per-position
random oracle the update consumed. -/
def mutateList (rand : Nat → Rand) : Nat → List Animatronic → List Animatronic
  | _, [] => []
  | i, a :: rest => mutatedPrev (rand i) a :: mutateList rand (i + 1) rest

/-- The previous array as it stands after the tick's in-place
`soundPlayed` mutations: this is the array the game-over return
`{ ...prev, gameState: 'gameOver' }` retains. -/
def mutatedPrevAnimatronics (rand : Nat → Rand) (prev : GameData) : List Animatronic :=
  mutateList rand 0 prev.animatronics

/-- One movement-timer tick (the `moveTimer` `setInterval` callback):
recompute every animatronic, then if any recomputed animatronic is at a
door with its door timer at 80 or more, return the previous snapshot with
the phase forced to `gameOver` — retaining the previous array, which
carries any in-place `soundPlayed` mutations made this tick; otherwise
return the snapshot with the recomputed array. -/
def schedStep (rand : Nat → Rand) (prev : GameData) : GameData :=
  if (updatedAnimatronics rand prev).any (fun a => a.atDoor && decide (a.doorTimer ≥ 80)) then
    { prev with gameState := .gameOver, animatronics := mutatedPrevAnimatronics rand prev }
  else
    { prev with animatronics := updatedAnimatronics rand prev }

/-- The power drain computed on a clock tick: base drain, plus the door
drain for each closed door, plus the camera drain when the camera view is
open. `showCameras` is component state outside `GameData` in the source,
so it is a parameter here. -/
def drain (showCameras : Bool) (prev : GameData) : ℚ :=
  BASE_POWER_DRAIN
    + (if prev.leftDoorClosed = true then DOOR_POWER_DRAIN else 0)
    + (if prev.rightDoorClosed = true then DOOR_POWER_DRAIN else 0)
    + (if showCameras = true then CAMERA_POWER_DRAIN else 0)

/-- One clock/power tick (the `gameTimer` `setInterval` callback). -/
def tickerStep (showCameras : Bool) (prev : GameData) : GameData :=
  if prev.power - drain showCameras prev ≤ 0 then
    { prev with gameState := .gameOver, power := 0 }
  else if prev.time + 1 ≥ NIGHT_DURATION then
    if prev.night ≥ 5 then { prev with gameState := .victory }
    else { prev with gameState := .menu }
  else
    { prev with time := prev.time + 1,
                power := max 0 (prev.power - drain showCameras prev) }

/-- `startGame` from the source. -/
def startGame (prev : GameData) : GameData := initializeNight 1 prev

/-- `restartGame` from the source. -/
def restartGame (prev : GameData) : GameData := { prev with gameState := .menu }

/-- The two door sides accepted by `toggleDoor`. -/
inductive DoorSide
  | left
  | right
deriving DecidableEq

/-- `toggleDoor` from the source. -/
def toggleDoor (side : DoorSide) (prev : GameData) : GameData :=
  match side with
  | .left => { prev with leftDoorClosed := !prev.leftDoorClosed }
  | .right => { prev with rightDoorClosed := !prev.rightDoorClosed }

/-- `switchCamera` from the source. The returned boolean records whether
the rejection notice (`toast.error`) was emitted: camera 2 is rejected
with the notice and no state change, any other index is stored
unconditionally. -/
def switchCamera (camera : ℤ) (prev : GameData) : GameData × Bool :=
  if camera = 2 then (prev, true)
  else ({ prev with currentCamera := camera }, false)

/-- One transition of the whole system: a clock tick or a scheduler tick
(both armed only while playing), a manual start from the menu, the menu
auto-advance to the next night, a restart, a door toggle, or a camera
switch. -/
inductive Step : GameData → GameData → Prop
  | ticker (showCameras : Bool) (s : GameData) :
      s.gameState = .playing → Step s (tickerStep showCameras s)
  | sched (rand : Nat → Rand) (s : GameData) :
      s.gameState = .playing → Step s (schedStep rand s)
  | start (s : GameData) : s.gameState = .menu → Step s (startGame s)
  | auto (s : GameData) : s.gameState = .menu → Step s (initializeNight (s.night + 1) s)
  | restart (s : GameData) : Step s (restartGame s)
  | toggle (side : DoorSide) (s : GameData) : Step s (toggleDoor side s)
  | camera (c : ℤ) (s : GameData) : Step s (switchCamera c s).1

/-- A snapshot is reachable when some sequence of transitions produces it
from the initial `useState` value. -/
def Reachable (s : GameData) : Prop :=
  Relation.ReflTransGen Step initialGameData s

/-- The at-door flag of one animatronic agrees with its location. -/
def atDoorConsistent (a : Animatronic) : Prop :=
  a.atDoor = true ↔ (a.location = .leftDoor ∨ a.location = .rightDoor)

/-- Every animatronic of the snapshot has its at-door flag consistent with
its location. -/
def AtDoorInv (s : GameData) : Prop :=
  ∀ a ∈ s.animatronics, atDoorConsistent a

/-- State of the auto-advance `useEffect`: the `prevGameStateRef` ref and
the pending 2-second timeout (carrying the night it will start), if one is
armed. -/
structure LifecycleCtrl where
  prevGameState : GameState
  pendingNight : Option Nat

/-- One run of the auto-advance `useEffect` after a dependency change.
React first runs the cleanup of the previous run (clearing any pending
timeout), then the body: when the previous phase was `playing` and the
current phase is `menu`, a timeout for night + 1 is armed and the ref is
left untouched (the body returns early); otherwise no timeout is armed and
the ref is updated to the current phase. -/
def autoAdvanceEffect (c : LifecycleCtrl) (s : GameData) : LifecycleCtrl :=
  if c.prevGameState = .playing ∧ s.gameState = .menu then
    { prevGameState := c.prevGameState, pendingNight := some (s.night + 1) }
  else
    { prevGameState := s.gameState, pendingNight := none }

/-- The pending timeout firing: `initializeNight` on the stored night. -/
def fireAutoAdvance (c : LifecycleCtrl) (s : GameData) : GameData :=
  match c.pendingNight with
  | some n => initializeNight n s
  | none => s

/-- Night-1 fresh playing snapshot, the state of §8's first scenario. -/
def scenario1 : GameData := initializeNight 1 initialGameData

/-- A playing snapshot whose next clock tick exhausts power. -/
def exC1 : GameData := { scenario1 with power := 0.05, time := 10 }

/-- A playing snapshot one tick before the night-duration threshold. -/
def exC2 : GameData := { scenario1 with time := 359 }

/-- A playing snapshot with Gen stalled 79 ticks at the open left door. -/
def exC3 : GameData :=
  { night := 1, time := 0, power := 100, leftDoorClosed := false, rightDoorClosed := false,
    currentCamera := 4,
    animatronics :=
      [⟨.Gen, .leftDoor, true, 0, true, false, 79⟩,
       ⟨.Poppy, .stage, true, 0, false, false, 0⟩,
       ⟨.Deddy, .stage, false, 0, false, false, 0⟩],
    gameState := .playing, bossMode := false }

/-- A random oracle whose samples all fail the probability comparisons. -/
def rand0 : Nat → Rand := fun _ => ⟨1, 1, 1⟩

/-- A random draw that fires the boss jump and picks the left door. -/
def rJump : Rand := ⟨1, 0, 0⟩

/-- Deddy freshly active on stage. -/
def exC5a : Animatronic := ⟨.Deddy, .stage, true, 0, false, false, 0⟩

/-- Deddy active on stage with the one-shot alert flag already set. -/
def exC7 : Animatronic := ⟨.Deddy, .stage, true, 0, false, true, 0⟩

lemma drain_nonneg (showCameras : Bool) (s : GameData) : 0 ≤ drain showCameras s := by
  unfold drain BASE_POWER_DRAIN DOOR_POWER_DRAIN CAMERA_POWER_DRAIN
  split_ifs <;> norm_num

lemma tickerStep_animatronics (showCameras : Bool) (s : GameData) :
    (tickerStep showCameras s).animatronics = s.animatronics := by
  unfold tickerStep
  split_ifs <;> rfl

/-- Claim C9 (confirmed): every camera-selection call with index 2 is
rejected: the snapshot is returned unchanged and the rejection notice is
emitted, on every such call. -/
theorem C9_camera_two_rejected (s : GameData) : switchCamera 2 s = (s, true) := by
  simp [switchCamera]

/-- Claim C10 (confirmed): the camera-selection intent rejects an index iff
it equals 2; every other integer index, in any snapshot (hence any
lifecycle phase), is stored into `currentCamera` with no validation, no
notice, and no other state change. -/
theorem C10_camera_validation (c : ℤ) (s : GameData) :
    (c ≠ 2 → switchCamera c s = ({ s with currentCamera := c }, false)) ∧
    (c = 2 → switchCamera c s = (s, true)) := by
  constructor
  · intro h
    simp [switchCamera, h]
  · intro h
    simp [switchCamera, h]

theorem C10_camera_validation_witness :
    switchCamera (-1) initialGameData = ({ initialGameData with currentCamera := -1 }, false) :=
  (C10_camera_validation (-1) initialGameData).1 (by decide)

/-- Claim C1 counterexample: on the clock tick that exhausts power, the
returned snapshot's elapsed time is NOT incremented (the gameOver branch
writes only the phase and the clamped power), contradicting the claim
that every playing tick produces a snapshot with time + 1. -/
theorem C1_counterexample :
    exC1.gameState = .playing ∧ (tickerStep false exC1).time ≠ exC1.time + 1 := by
  constructor
  · rfl
  · norm_num [tickerStep, exC1, scenario1, initializeNight, initialGameData, drain,
      BASE_POWER_DRAIN, DOOR_POWER_DRAIN, CAMERA_POWER_DRAIN, NIGHT_DURATION]

/-- Claim C1 (amended): on every clock tick taken while playing, the tick
computes time + 1 and power − drain and evaluates the rules in priority
order — power exhausted gives gameOver with power clamped to 0, else time
reaching 360 gives victory for night ≥ 5 (the final scripted night) and
menu otherwise, else playing with the updated time and clamped power —
but the terminal branches leave the time field (and, for the night-end
branch, the power field) at their previous values. -/
theorem C1_amended (showCameras : Bool) (s : GameData) (hs : s.gameState = .playing) :
    (s.power - drain showCameras s ≤ 0 →
      (tickerStep showCameras s).gameState = .gameOver ∧
      (tickerStep showCameras s).power = 0 ∧
      (tickerStep showCameras s).time = s.time) ∧
    (¬(s.power - drain showCameras s ≤ 0) → s.time + 1 ≥ NIGHT_DURATION →
      (tickerStep showCameras s).time = s.time ∧
      (tickerStep showCameras s).power = s.power ∧
      (s.night ≥ 5 → (tickerStep showCameras s).gameState = .victory) ∧
      (s.night < 5 → (tickerStep showCameras s).gameState = .menu)) ∧
    (¬(s.power - drain showCameras s ≤ 0) → s.time + 1 < NIGHT_DURATION →
      (tickerStep showCameras s).gameState = .playing ∧
      (tickerStep showCameras s).time = s.time + 1 ∧
      (tickerStep showCameras s).power = max 0 (s.power - drain showCameras s)) := by
  refine ⟨?_, ?_, ?_⟩
  · intro hp
    unfold tickerStep
    rw [if_pos hp]
    exact ⟨rfl, rfl, rfl⟩
  · intro hp ht
    unfold tickerStep
    rw [if_neg hp, if_pos ht]
    refine ⟨?_, ?_, ?_, ?_⟩
    · split <;> rfl
    · split <;> rfl
    · intro h5
      rw [if_pos h5]
    · intro h5
      rw [if_neg (by omega)]
  · intro hp ht
    unfold tickerStep
    rw [if_neg hp, if_neg (by omega)]
    exact ⟨hs, rfl, rfl⟩

theorem C1_amended_witness :
    (tickerStep false scenario1).gameState = .playing ∧
    (tickerStep false scenario1).time = scenario1.time + 1 ∧
    (tickerStep false scenario1).power = max 0 (scenario1.power - drain false scenario1) :=
  (C1_amended false scenario1 rfl).2.2
    (by norm_num [scenario1, initializeNight, initialGameData, drain,
      BASE_POWER_DRAIN, DOOR_POWER_DRAIN, CAMERA_POWER_DRAIN])
    (by norm_num [scenario1, initializeNight, initialGameData, NIGHT_DURATION])

/-- Claim C2 counterexample: on the clock tick that ends the night (time
reaching 360 with power left), nothing is subtracted from power — the
menu/victory branch returns the previous power — so the subtracted amount
does not equal the drain formula on that playing tick. -/
theorem C2_counterexample :
    exC2.gameState = .playing ∧
    (tickerStep false exC2).power = exC2.power ∧
    (tickerStep false exC2).power ≠ exC2.power - drain false exC2 := by
  refine ⟨rfl, ?_, ?_⟩ <;>
    norm_num [tickerStep, exC2, scenario1, initializeNight, initialGameData, drain,
      BASE_POWER_DRAIN, DOOR_POWER_DRAIN, CAMERA_POWER_DRAIN, NIGHT_DURATION]

/-- Claim C2 (amended): the drain computed on a clock tick equals exactly
base (0.05) plus 0.15 per closed door plus 0.2 when the camera view is
open, and exactly that amount is subtracted on every playing tick that
neither exhausts power nor reaches the night duration; on the
power-exhaustion tick power is clamped to 0 and on the night-end tick
power is left unchanged. Consequently power is monotonically
non-increasing across playing ticks and stays within [0,100]. In
particular, on night 1 with power 100, doors open and cameras closed, one
tick yields power 99.95 with the phase still playing. -/
theorem C2_power_drain (showCameras : Bool) (s : GameData)
    (hplay : s.gameState = .playing) (h0 : 0 ≤ s.power) (h100 : s.power ≤ 100) :
    drain showCameras s =
      BASE_POWER_DRAIN +
        ((if s.leftDoorClosed = true then (1 : ℚ) else 0) +
          (if s.rightDoorClosed = true then (1 : ℚ) else 0)) * DOOR_POWER_DRAIN +
        (if showCameras = true then CAMERA_POWER_DRAIN else 0) ∧
    (¬(s.power - drain showCameras s ≤ 0) → s.time + 1 < NIGHT_DURATION →
      (tickerStep showCameras s).power = s.power - drain showCameras s) ∧
    0 ≤ (tickerStep showCameras s).power ∧
    (tickerStep showCameras s).power ≤ s.power ∧
    (tickerStep showCameras s).power ≤ 100 ∧
    (tickerStep false scenario1).power = 99.95 ∧
    (tickerStep false scenario1).gameState = .playing := by
  refine ⟨?_, ?_, ?_, ?_, ?_, ?_, ?_⟩
  · unfold drain
    split_ifs <;> ring
  · intro hp ht
    unfold tickerStep
    rw [if_neg hp, if_neg (by omega)]
    exact max_eq_right (le_of_lt (not_le.mp hp))
  · unfold tickerStep
    split_ifs with h1 h2 h3
    · exact le_refl 0
    · exact h0
    · exact h0
    · exact le_max_left 0 _
  · unfold tickerStep
    split_ifs with h1 h2 h3
    · exact h0
    · exact le_refl _
    · exact le_refl _
    · exact max_le h0 (sub_le_self _ (drain_nonneg _ _))
  · unfold tickerStep
    split_ifs with h1 h2 h3
    · norm_num
    · exact h100
    · exact h100
    · exact le_trans (max_le h0 (sub_le_self _ (drain_nonneg _ _))) h100
  · norm_num [tickerStep, scenario1, initializeNight, initialGameData, drain,
      BASE_POWER_DRAIN, DOOR_POWER_DRAIN, CAMERA_POWER_DRAIN, NIGHT_DURATION]
  · norm_num [tickerStep, scenario1, initializeNight, initialGameData, drain,
      BASE_POWER_DRAIN, DOOR_POWER_DRAIN, CAMERA_POWER_DRAIN, NIGHT_DURATION]

theorem C2_power_drain_witness :
    0 ≤ (tickerStep false scenario1).power ∧ (tickerStep false scenario1).power = 99.95 := by
  have h := C2_power_drain false scenario1 rfl
    (by norm_num [scenario1, initializeNight, initialGameData])
    (by norm_num [scenario1, initializeNight, initialGameData])
  exact ⟨h.2.2.1, h.2.2.2.2.2.1⟩

/-- Claim C4 (confirmed): an active actor that is not flagged at a door
but sits on a door node whose door is closed, with its dwell counter past
the 90-tick threshold, is returned to the stage by the scheduler's
per-actor rule (rather than advancing into the closed door), with flags
and counters reset. -/
theorem C4_blocked_return (bossMode leftDoorClosed rightDoorClosed : Bool) (r : Rand)
    (a : Animatronic) (hact : a.isActive = true) (hnd : a.atDoor = false)
    (hblock : (a.location = .leftDoor ∧ leftDoorClosed = true) ∨
              (a.location = .rightDoor ∧ rightDoorClosed = true))
    (hmt : a.moveTimer + 1 ≥ 90) :
    updateAnimatronic bossMode leftDoorClosed rightDoorClosed r a =
      { a with location := .stage, atDoor := false, moveTimer := 0,
               soundPlayed := false, doorTimer := 0 } := by
  have hA : ¬(a.isActive = false) := by simp [hact]
  have hD : ¬(a.atDoor = true) := by simp [hnd]
  have hloc : a.location = .leftDoor ∨ a.location = .rightDoor := by
    rcases hblock with ⟨h, _⟩ | ⟨h, _⟩
    · exact Or.inl h
    · exact Or.inr h
  have hSM : ¬((a.location = .stage ∧ a.moveTimer + 1 ≥ 80) ∨
               (a.location = .cam3 ∧ a.moveTimer + 1 ≥ 90) ∨
               (a.location = .cam1 ∧ a.moveTimer + 1 ≥ 100)) := by
    rcases hloc with h | h <;> rintro (⟨h1, _⟩ | ⟨h1, _⟩ | ⟨h1, _⟩) <;> simp [h] at h1
  have hB : isBlockedByDoor a leftDoorClosed rightDoorClosed = true := by
    unfold isBlockedByDoor
    rcases hblock with ⟨h1, h2⟩ | ⟨h1, h2⟩ <;> simp [h1, h2]
  unfold updateAnimatronic
  rw [if_neg hA, if_neg hD, if_neg hSM, if_pos ⟨hB, hmt⟩]

theorem C4_blocked_return_witness :
    updateAnimatronic false true false ⟨1, 1, 1⟩ ⟨.Gen, .leftDoor, true, 89, false, false, 0⟩ =
      ⟨.Gen, .stage, true, 0, false, false, 0⟩ :=
  C4_blocked_return false true false ⟨1, 1, 1⟩ ⟨.Gen, .leftDoor, true, 89, false, false, 0⟩
    rfl rfl (Or.inl ⟨rfl, rfl⟩) (by decide)

lemma updateAnimatronic_at_open_door_stall (bossMode leftDoorClosed rightDoorClosed : Bool)
    (r : Rand) (a : Animatronic) (hact : a.isActive = true) (had : a.atDoor = true)
    (hopen : ¬((a.location = .leftDoor ∧ leftDoorClosed = true) ∨
               (a.location = .rightDoor ∧ rightDoorClosed = true)))
    (hdt : a.doorTimer + 1 ≥ 80) :
    updateAnimatronic bossMode leftDoorClosed rightDoorClosed r a =
      { a with doorTimer := a.doorTimer + 1 } := by
  have hA : ¬(a.isActive = false) := by simp [hact]
  unfold updateAnimatronic
  rw [if_neg hA, if_pos had, if_neg hopen, if_pos hdt]

lemma exists_mem_updateList (bossMode leftDoorClosed rightDoorClosed : Bool)
    (rand : Nat → Rand) :
    ∀ (as : List Animatronic) (j : Nat) (a : Animatronic), a ∈ as →
      ∃ k, updateAnimatronic bossMode leftDoorClosed rightDoorClosed (rand k) a ∈
        updateList bossMode leftDoorClosed rightDoorClosed rand j as := by
  intro as
  induction as with
  | nil =>
      intro j a ha
      simp at ha
  | cons b rest ih =>
      intro j a ha
      rcases List.mem_cons.mp ha with h | h
      · subst h
        exact ⟨j, List.mem_cons_self _ _⟩
      · obtain ⟨k, hk⟩ := ih (j + 1) a h
        exact ⟨k, List.mem_cons_of_mem _ hk⟩

lemma mutatedPrev_residue (r : Rand) (a : Animatronic) :
    mutatedPrev r a = a ∨ mutatedPrev r a = { a with soundPlayed := true } := by
  unfold mutatedPrev mutateSound
  split_ifs <;> first
  | exact Or.inl rfl
  | exact Or.inr rfl

lemma mutateList_forall2 (rand : Nat → Rand) :
    ∀ (as : List Animatronic) (j : Nat),
      List.Forall₂ (fun x b => b = x ∨ b = { x with soundPlayed := true }) as
        (mutateList rand j as) := by
  intro as
  induction as with
  | nil =>
      intro j
      exact List.Forall₂.nil
  | cons a rest ih =>
      intro j
      exact List.Forall₂.cons (mutatedPrev_residue (rand j) a) (ih (j + 1))

/-- Claim C3 counterexample: with Gen stalled 79 ticks at the open left
door, the scheduler tick forces gameOver, but the returned snapshot keeps
the PREVIOUS actor array (Gen's door timer still 79; no in-place mutation
fires at this state), not the updated array computed this tick —
contradicting the claim that the updated array is kept with only the
phase overridden. -/
theorem C3_counterexample :
    exC3.gameState = .playing ∧
    (schedStep rand0 exC3).gameState = .gameOver ∧
    (schedStep rand0 exC3).animatronics = exC3.animatronics ∧
    (schedStep rand0 exC3).animatronics ≠ updatedAnimatronics rand0 exC3 := by
  refine ⟨rfl, ?_, ?_, ?_⟩ <;>
    simp [schedStep, updatedAnimatronics, exC3, updateList, updateAnimatronic, rand0,
      isBlockedByDoor, moveAnimatronic, mutatedPrevAnimatronics, mutateList, mutatedPrev,
      mutateSound]

/-- Claim C3 (amended): on a scheduler tick during playing, if any active
actor at an open door has its stall counter reach at least 80, the
resulting phase is gameOver; the check is made after all actors have been
recomputed (over the updated array), but on game over the returned
snapshot keeps the previous actor array rather than the one recomputed
this tick — the recomputed array is discarded, and besides the phase the
only changes the retained array can carry are the in-place one-shot alert
mutations (an actor whose move fired this tick may have its soundPlayed
flag set to true in place). -/
theorem C3_amended (rand : Nat → Rand) (s : GameData) (a : Animatronic)
    (ha : a ∈ s.animatronics) (hplay : s.gameState = .playing)
    (hact : a.isActive = true) (had : a.atDoor = true)
    (hopen : ¬((a.location = .leftDoor ∧ s.leftDoorClosed = true) ∨
               (a.location = .rightDoor ∧ s.rightDoorClosed = true)))
    (hdt : a.doorTimer + 1 ≥ 80) :
    (schedStep rand s).gameState = .gameOver ∧
    (schedStep rand s).animatronics = mutatedPrevAnimatronics rand s ∧
    List.Forall₂ (fun x b => b = x ∨ b = { x with soundPlayed := true })
      s.animatronics (schedStep rand s).animatronics := by
  obtain ⟨k, hk⟩ :=
    exists_mem_updateList s.bossMode s.leftDoorClosed s.rightDoorClosed rand
      s.animatronics 0 a ha
  have hupd :=
    updateAnimatronic_at_open_door_stall s.bossMode s.leftDoorClosed s.rightDoorClosed
      (rand k) a hact had hopen hdt
  have hany : (updatedAnimatronics rand s).any
      (fun x => x.atDoor && decide (x.doorTimer ≥ 80)) = true := by
    refine List.any_eq_true.mpr ⟨_, hk, ?_⟩
    rw [hupd]
    simp [had]
    omega
  unfold schedStep
  rw [if_pos hany]
  exact ⟨rfl, rfl, mutateList_forall2 rand s.animatronics 0⟩

theorem C3_amended_witness :
    (schedStep rand0 exC3).gameState = .gameOver ∧
    (schedStep rand0 exC3).animatronics = mutatedPrevAnimatronics rand0 exC3 ∧
    List.Forall₂ (fun x b => b = x ∨ b = { x with soundPlayed := true })
      exC3.animatronics (schedStep rand0 exC3).animatronics :=
  C3_amended rand0 exC3 ⟨.Gen, .leftDoor, true, 0, true, false, 79⟩
    (List.mem_cons_self _ _) rfl rfl rfl (by decide) (by decide)

lemma updateAnimatronic_move (bossMode leftDoorClosed rightDoorClosed : Bool) (r : Rand)
    (a : Animatronic) (hact : a.isActive = true) (hnd : a.atDoor = false)
    (hSM : (a.location = .stage ∧ a.moveTimer + 1 ≥ 80) ∨
           (a.location = .cam3 ∧ a.moveTimer + 1 ≥ 90) ∨
           (a.location = .cam1 ∧ a.moveTimer + 1 ≥ 100)) :
    updateAnimatronic bossMode leftDoorClosed rightDoorClosed r a =
      { moveAnimatronic r.hallChoice a with doorTimer := 0 } := by
  have hA : ¬(a.isActive = false) := by simp [hact]
  have hD : ¬(a.atDoor = true) := by simp [hnd]
  unfold updateAnimatronic
  rw [if_neg hA, if_neg hD, if_pos hSM]

lemma updateAnimatronic_stay (bossMode leftDoorClosed rightDoorClosed : Bool) (r : Rand)
    (a : Animatronic) (hact : a.isActive = true) (hnd : a.atDoor = false)
    (hSM : ¬((a.location = .stage ∧ a.moveTimer + 1 ≥ 80) ∨
             (a.location = .cam3 ∧ a.moveTimer + 1 ≥ 90) ∨
             (a.location = .cam1 ∧ a.moveTimer + 1 ≥ 100)))
    (hB : ¬(isBlockedByDoor a leftDoorClosed rightDoorClosed = true ∧ a.moveTimer + 1 ≥ 90))
    (hnj : ¬(bossMode = true ∧ a.name = .Deddy ∧ r.bossJump < 0.045)) :
    updateAnimatronic bossMode leftDoorClosed rightDoorClosed r a =
      { a with moveTimer := a.moveTimer + 1, doorTimer := 0 } := by
  have hA : ¬(a.isActive = false) := by simp [hact]
  have hD : ¬(a.atDoor = true) := by simp [hnd]
  unfold updateAnimatronic
  rw [if_neg hA, if_neg hD, if_neg hSM, if_neg hB, if_neg hnj]

/-- Claim C5 counterexample: in boss mode, Deddy on stage with dwell
counter 0 is relocated straight to the left door when the jump sample
fires, although his dwell counter is far below every location threshold —
so the scheduler does not move actors only at the dwell thresholds, and
the hallway branch is not the only nondeterministic one. -/
theorem C5_counterexample :
    exC5a.isActive = true ∧ exC5a.atDoor = false ∧ exC5a.location = .stage ∧
    exC5a.moveTimer + 1 < 80 ∧
    (updateAnimatronic true false false rJump exC5a).location = .leftDoor := by
  refine ⟨rfl, rfl, rfl, by decide, ?_⟩
  norm_num [updateAnimatronic, exC5a, rJump, isBlockedByDoor]

/-- Claim C5 (amended): for every active actor not at a door sitting at
stage, side-hall (cam3) or hallway (cam1), on any tick where the
boss-jump branch does not fire, the scheduler increments the dwell
counter and moves the actor exactly when it reaches the
location-specific threshold — 80 at stage, 90 at cam3, 100 at cam1 —
along stage → cam3 → cam1, and from cam1 to the left door when the
uniform sample is below 1/2 and to the right door otherwise; on arrival
at a door the at-door flag is set and the dwell counter resets to 0. (In
boss mode the jump branch may additionally relocate Deddy to a random
door before the threshold.) -/
theorem C5_amended (bossMode leftDoorClosed rightDoorClosed : Bool) (r : Rand)
    (a : Animatronic) (hact : a.isActive = true) (hnd : a.atDoor = false)
    (hnj : ¬(bossMode = true ∧ a.name = .Deddy ∧ r.bossJump < 0.045)) :
    (a.location = .stage →
      (a.moveTimer + 1 < 80 →
        (updateAnimatronic bossMode leftDoorClosed rightDoorClosed r a).location = .stage ∧
        (updateAnimatronic bossMode leftDoorClosed rightDoorClosed r a).moveTimer = a.moveTimer + 1 ∧
        (updateAnimatronic bossMode leftDoorClosed rightDoorClosed r a).atDoor = false) ∧
      (a.moveTimer + 1 ≥ 80 →
        (updateAnimatronic bossMode leftDoorClosed rightDoorClosed r a).location = .cam3 ∧
        (updateAnimatronic bossMode leftDoorClosed rightDoorClosed r a).moveTimer = 0 ∧
        (updateAnimatronic bossMode leftDoorClosed rightDoorClosed r a).atDoor = false)) ∧
    (a.location = .cam3 →
      (a.moveTimer + 1 < 90 →
        (updateAnimatronic bossMode leftDoorClosed rightDoorClosed r a).location = .cam3 ∧
        (updateAnimatronic bossMode leftDoorClosed rightDoorClosed r a).moveTimer = a.moveTimer + 1 ∧
        (updateAnimatronic bossMode leftDoorClosed rightDoorClosed r a).atDoor = false) ∧
      (a.moveTimer + 1 ≥ 90 →
        (updateAnimatronic bossMode leftDoorClosed rightDoorClosed r a).location = .cam1 ∧
        (updateAnimatronic bossMode leftDoorClosed rightDoorClosed r a).moveTimer = 0 ∧
        (updateAnimatronic bossMode leftDoorClosed rightDoorClosed r a).atDoor = false)) ∧
    (a.location = .cam1 →
      (a.moveTimer + 1 < 100 →
        (updateAnimatronic bossMode leftDoorClosed rightDoorClosed r a).location = .cam1 ∧
        (updateAnimatronic bossMode leftDoorClosed rightDoorClosed r a).moveTimer = a.moveTimer + 1 ∧
        (updateAnimatronic bossMode leftDoorClosed rightDoorClosed r a).atDoor = false) ∧
      (a.moveTimer + 1 ≥ 100 →
        (r.hallChoice < 1/2 →
          (updateAnimatronic bossMode leftDoorClosed rightDoorClosed r a).location = .leftDoor ∧
          (updateAnimatronic bossMode leftDoorClosed rightDoorClosed r a).moveTimer = 0 ∧
          (updateAnimatronic bossMode leftDoorClosed rightDoorClosed r a).atDoor = true) ∧
        (¬(r.hallChoice < 1/2) →
          (updateAnimatronic bossMode leftDoorClosed rightDoorClosed r a).location = .rightDoor ∧
          (updateAnimatronic bossMode leftDoorClosed rightDoorClosed r a).moveTimer = 0 ∧
          (updateAnimatronic bossMode leftDoorClosed rightDoorClosed r a).atDoor = true))) := by
  refine ⟨?_, ?_, ?_⟩
  · intro hloc
    constructor
    · intro hlt
      have hSM : ¬((a.location = .stage ∧ a.moveTimer + 1 ≥ 80) ∨
                   (a.location = .cam3 ∧ a.moveTimer + 1 ≥ 90) ∨
                   (a.location = .cam1 ∧ a.moveTimer + 1 ≥ 100)) := by
        rintro (⟨h1, h2⟩ | ⟨h1, h2⟩ | ⟨h1, h2⟩)
        · omega
        · simp [hloc] at h1
        · simp [hloc] at h1
      have hB : ¬(isBlockedByDoor a leftDoorClosed rightDoorClosed = true ∧
                  a.moveTimer + 1 ≥ 90) := by
        rintro ⟨hb, _⟩
        simp [isBlockedByDoor, hloc] at hb
      rw [updateAnimatronic_stay bossMode leftDoorClosed rightDoorClosed r a hact hnd hSM hB hnj]
      exact ⟨hloc, rfl, hnd⟩
    · intro hge
      rw [updateAnimatronic_move bossMode leftDoorClosed rightDoorClosed r a hact hnd
        (Or.inl ⟨hloc, hge⟩)]
      refine ⟨?_, rfl, ?_⟩ <;> simp [moveAnimatronic, hloc]
  · intro hloc
    constructor
    · intro hlt
      have hSM : ¬((a.location = .stage ∧ a.moveTimer + 1 ≥ 80) ∨
                   (a.location = .cam3 ∧ a.moveTimer + 1 ≥ 90) ∨
                   (a.location = .cam1 ∧ a.moveTimer + 1 ≥ 100)) := by
        rintro (⟨h1, h2⟩ | ⟨h1, h2⟩ | ⟨h1, h2⟩)
        · simp [hloc] at h1
        · omega
        · simp [hloc] at h1
      have hB : ¬(isBlockedByDoor a leftDoorClosed rightDoorClosed = true ∧
                  a.moveTimer + 1 ≥ 90) := by
        rintro ⟨hb, _⟩
        simp [isBlockedByDoor, hloc] at hb
      rw [updateAnimatronic_stay bossMode leftDoorClosed rightDoorClosed r a hact hnd hSM hB hnj]
      exact ⟨hloc, rfl, hnd⟩
    · intro hge
      rw [updateAnimatronic_move bossMode leftDoorClosed rightDoorClosed r a hact hnd
        (Or.inr (Or.inl ⟨hloc, hge⟩))]
      refine ⟨?_, rfl, ?_⟩ <;> simp [moveAnimatronic, hloc]
  · intro hloc
    constructor
    · intro hlt
      have hSM : ¬((a.location = .stage ∧ a.moveTimer + 1 ≥ 80) ∨
                   (a.location = .cam3 ∧ a.moveTimer + 1 ≥ 90) ∨
                   (a.location = .cam1 ∧ a.moveTimer + 1 ≥ 100)) := by
        rintro (⟨h1, h2⟩ | ⟨h1, h2⟩ | ⟨h1, h2⟩)
        · simp [hloc] at h1
        · simp [hloc] at h1
        · omega
      have hB : ¬(isBlockedByDoor a leftDoorClosed rightDoorClosed = true ∧
                  a.moveTimer + 1 ≥ 90) := by
        rintro ⟨hb, _⟩
        simp [isBlockedByDoor, hloc] at hb
      rw [updateAnimatronic_stay bossMode leftDoorClosed rightDoorClosed r a hact hnd hSM hB hnj]
      exact ⟨hloc, rfl, hnd⟩
    · intro hge
      constructor
      · intro hc
        have hc2 : r.hallChoice < 2⁻¹ := by rwa [one_div] at hc
        rw [updateAnimatronic_move bossMode leftDoorClosed rightDoorClosed r a hact hnd
          (Or.inr (Or.inr ⟨hloc, hge⟩))]
        refine ⟨?_, rfl, ?_⟩ <;> simp [moveAnimatronic, hloc, hc, hc2]
      · intro hc
        have hc2 : ¬(r.hallChoice < 2⁻¹) := by rwa [one_div] at hc
        rw [updateAnimatronic_move bossMode leftDoorClosed rightDoorClosed r a hact hnd
          (Or.inr (Or.inr ⟨hloc, hge⟩))]
        refine ⟨?_, rfl, ?_⟩ <;> simp [moveAnimatronic, hloc, hc, hc2]

theorem C5_amended_witness :
    (updateAnimatronic false false false ⟨0, 1, 1⟩ ⟨.Gen, .cam1, true, 99, false, false, 0⟩).location = .leftDoor ∧
    (updateAnimatronic false false false ⟨0, 1, 1⟩ ⟨.Gen, .cam1, true, 99, false, false, 0⟩).moveTimer = 0 ∧
    (updateAnimatronic false false false ⟨0, 1, 1⟩ ⟨.Gen, .cam1, true, 99, false, false, 0⟩).atDoor = true :=
  (((C5_amended false false false ⟨0, 1, 1⟩ ⟨.Gen, .cam1, true, 99, false, false, 0⟩
      rfl rfl (by norm_num)).2.2 rfl).2 (by decide)).1 (by norm_num)

/-- Claim C7 counterexample: the boss-mode jump clears Deddy's alert flag
while relocating him to the LEFT DOOR, not to the stage — so the one-shot
alert flag is reset mid-night by a scheduler transition that is not one
of the door-repel/stage-reset paths. -/
theorem C7_counterexample :
    exC7.soundPlayed = true ∧
    (updateAnimatronic true false false rJump exC7).soundPlayed = false ∧
    (updateAnimatronic true false false rJump exC7).location = .leftDoor := by
  refine ⟨rfl, ?_, ?_⟩ <;>
    norm_num [updateAnimatronic, exC7, rJump, isBlockedByDoor]

/-- Claim C7 (amended): during a night, a set alert flag (soundPlayed) is
cleared by a scheduler transition only when that transition also zeroes
the move counter and relocates the actor: the door-repel and
blocked-by-door paths back to stage, or the boss-mode jump to a door;
every other per-actor transition preserves a set flag. -/
theorem C7_amended (bossMode leftDoorClosed rightDoorClosed : Bool) (r : Rand)
    (a : Animatronic) (hsp : a.soundPlayed = true)
    (hclr : (updateAnimatronic bossMode leftDoorClosed rightDoorClosed r a).soundPlayed = false) :
    ((updateAnimatronic bossMode leftDoorClosed rightDoorClosed r a).location = .stage ∧
      (updateAnimatronic bossMode leftDoorClosed rightDoorClosed r a).atDoor = false ∧
      (updateAnimatronic bossMode leftDoorClosed rightDoorClosed r a).moveTimer = 0) ∨
    (bossMode = true ∧ a.name = .Deddy ∧
      (updateAnimatronic bossMode leftDoorClosed rightDoorClosed r a).atDoor = true ∧
      (updateAnimatronic bossMode leftDoorClosed rightDoorClosed r a).moveTimer = 0 ∧
      ((updateAnimatronic bossMode leftDoorClosed rightDoorClosed r a).location = .leftDoor ∨
        (updateAnimatronic bossMode leftDoorClosed rightDoorClosed r a).location = .rightDoor)) := by
  unfold updateAnimatronic at hclr ⊢
  split_ifs at hclr ⊢ with h1 h2 h3 h4 h5 h6 h7 h8
  · exact absurd hclr (by simp [hsp])
  · exact Or.inl ⟨rfl, rfl, rfl⟩
  · simp [hsp] at hclr
  · simp [hsp] at hclr
  · simp [moveAnimatronic, hsp] at hclr
  · exact Or.inl ⟨rfl, rfl, rfl⟩
  · exact Or.inr ⟨h7.1, h7.2.1, rfl, rfl, Or.inl rfl⟩
  · exact Or.inr ⟨h7.1, h7.2.1, rfl, rfl, Or.inr rfl⟩
  · simp [hsp] at hclr

lemma updateAnimatronic_consistent (bossMode leftDoorClosed rightDoorClosed : Bool)
    (r : Rand) (a : Animatronic) (h : atDoorConsistent a) :
    atDoorConsistent (updateAnimatronic bossMode leftDoorClosed rightDoorClosed r a) := by
  unfold updateAnimatronic
  split_ifs with h1 h2 h3 h4 h5 h6 h7 h8
  · exact h
  · simp [atDoorConsistent]
  · exact h
  · exact h
  · simp [atDoorConsistent, moveAnimatronic]
  · simp [atDoorConsistent]
  · simp [atDoorConsistent]
  · simp [atDoorConsistent]
  · exact h

lemma updateList_consistent (bossMode leftDoorClosed rightDoorClosed : Bool)
    (rand : Nat → Rand) :
    ∀ (as : List Animatronic) (j : Nat), (∀ a ∈ as, atDoorConsistent a) →
      ∀ b ∈ updateList bossMode leftDoorClosed rightDoorClosed rand j as,
        atDoorConsistent b := by
  intro as
  induction as with
  | nil =>
      intro j h b hb
      simp [updateList] at hb
  | cons a rest ih =>
      intro j h b hb
      rcases List.mem_cons.mp hb with hb | hb
      · subst hb
        exact updateAnimatronic_consistent _ _ _ _ a (h a (List.mem_cons_self _ _))
      · exact ih (j + 1) (fun x hx => h x (List.mem_cons_of_mem _ hx)) b hb

lemma mutatedPrev_consistent (r : Rand) (a : Animatronic) (h : atDoorConsistent a) :
    atDoorConsistent (mutatedPrev r a) := by
  rcases mutatedPrev_residue r a with he | he <;> rw [he]
  · exact h
  · exact h

lemma mutateList_consistent (rand : Nat → Rand) :
    ∀ (as : List Animatronic) (j : Nat), (∀ a ∈ as, atDoorConsistent a) →
      ∀ b ∈ mutateList rand j as, atDoorConsistent b := by
  intro as
  induction as with
  | nil =>
      intro j h b hb
      simp [mutateList] at hb
  | cons a rest ih =>
      intro j h b hb
      rcases List.mem_cons.mp hb with hb | hb
      · subst hb
        exact mutatedPrev_consistent _ a (h a (List.mem_cons_self _ _))
      · exact ih (j + 1) (fun x hx => h x (List.mem_cons_of_mem _ hx)) b hb

lemma nightAnimatronics_consistent (night : Nat) :
    ∀ a ∈ nightAnimatronics night, atDoorConsistent a := by
  intro a ha
  unfold nightAnimatronics at ha
  split_ifs at ha <;> (simp at ha; rcases ha with rfl | rfl | rfl <;> simp [atDoorConsistent])

lemma step_preserves_AtDoorInv (s t : GameData) (hst : Step s t) (h : AtDoorInv s) :
    AtDoorInv t := by
  cases hst with
  | ticker showCameras s hs =>
      intro a ha
      rw [tickerStep_animatronics] at ha
      exact h a ha
  | sched rand s hs =>
      intro a ha
      unfold schedStep at ha
      split_ifs at ha with hGO
      · exact mutateList_consistent rand s.animatronics 0 h a ha
      · exact updateList_consistent _ _ _ rand s.animatronics 0 h a ha
  | start s hs =>
      intro a ha
      exact nightAnimatronics_consistent 1 a ha
  | auto s hs =>
      intro a ha
      exact nightAnimatronics_consistent (s.night + 1) a ha
  | restart s =>
      intro a ha
      exact h a ha
  | toggle side s =>
      cases side with
      | left => exact fun a ha => h a ha
      | right => exact fun a ha => h a ha
  | camera c s =>
      intro a ha
      unfold switchCamera at ha
      split_ifs at ha
      · exact h a ha
      · exact h a ha

/-- Claim C6 (confirmed): in every reachable game state, each actor's
at-door flag is true iff its location is the left or right door; night
initialization, clock ticks, every scheduler transition (repel, stall,
move, blocked-return, boss jump, game-over override), starts, restarts,
door toggles and camera switches all preserve this invariant. -/
theorem C6_at_door_invariant (s : GameData) (hs : Reachable s) : AtDoorInv s := by
  unfold Reachable at hs
  induction hs with
  | refl =>
      intro a ha
      simp [initialGameData] at ha
      rcases ha with rfl | rfl | rfl <;> simp [atDoorConsistent]
  | tail hab hbc ih => exact step_preserves_AtDoorInv _ _ hbc ih

theorem C6_at_door_invariant_witness : AtDoorInv initialGameData :=
  C6_at_door_invariant initialGameData Relation.ReflTransGen.refl

/-- Claim C8 (confirmed): one run of the auto-advance effect arms the
next-night timeout exactly when the tracked previous phase was `playing`
and the current phase is `menu`; the armed timeout starts a fresh playing
snapshot for night + 1; entering menu via `restartGame` from gameOver or
victory never arms it; and any effect run discards whatever timeout was
pending before (the cleanup's cancellation), so a superseded auto-advance
never fires. -/
theorem C8_auto_advance (c : LifecycleCtrl) (s : GameData) :
    (c.prevGameState = .playing → s.gameState = .menu →
      (autoAdvanceEffect c s).pendingNight = some (s.night + 1) ∧
      (fireAutoAdvance (autoAdvanceEffect c s) s).gameState = .playing ∧
      (fireAutoAdvance (autoAdvanceEffect c s) s).night = s.night + 1 ∧
      (fireAutoAdvance (autoAdvanceEffect c s) s).time = 0 ∧
      (fireAutoAdvance (autoAdvanceEffect c s) s).power = 100) ∧
    (¬(c.prevGameState = .playing ∧ s.gameState = .menu) →
      (autoAdvanceEffect c s).pendingNight = none) ∧
    (∀ g : GameState, g = .gameOver ∨ g = .victory →
      (autoAdvanceEffect ⟨g, c.pendingNight⟩ (restartGame s)).pendingNight = none) ∧
    (∀ p : Option Nat, autoAdvanceEffect ⟨c.prevGameState, p⟩ s = autoAdvanceEffect c s) := by
  refine ⟨?_, ?_, ?_, ?_⟩
  · intro h1 h2
    unfold autoAdvanceEffect
    rw [if_pos ⟨h1, h2⟩]
    exact ⟨rfl, rfl, rfl, rfl, rfl⟩
  · intro hn
    unfold autoAdvanceEffect
    rw [if_neg hn]
  · rintro g (rfl | rfl) <;> simp [autoAdvanceEffect, restartGame]
  · intro p
    rfl

theorem C8_auto_advance_witness :
    (autoAdvanceEffect ⟨.playing, none⟩ initialGameData).pendingNight = some 2 ∧
    (fireAutoAdvance (autoAdvanceEffect ⟨.playing, none⟩ initialGameData)
      initialGameData).gameState = .playing := by
  have h := (C8_auto_advance ⟨.playing, none⟩ initialGameData).1 rfl rfl
  exact ⟨h.1, h.2.1⟩

theorem C7_amended_witness :
    ((updateAnimatronic true false false rJump exC7).location = .stage ∧
      (updateAnimatronic true false false rJump exC7).atDoor = false ∧
      (updateAnimatronic true false false rJump exC7).moveTimer = 0) ∨
    (true = true ∧ exC7.name = .Deddy ∧
      (updateAnimatronic true false false rJump exC7).atDoor = true ∧
      (updateAnimatronic true false false rJump exC7).moveTimer = 0 ∧
      ((updateAnimatronic true false false rJump exC7).location = .leftDoor ∨
        (updateAnimatronic true false false rJump exC7).location = .rightDoor)) :=
  C7_amended true false false rJump exC7 rfl
    (by norm_num [updateAnimatronic, exC7, rJump, isBlockedByDoor])

end Fnaf
